import Mathlib

/-!
Shallow embedding of the sOS RISC-V64 virtual-memory core
(src/libkernel/src/arch/riscv64/memory/{pg_descriptors,pg_tables,pg_walk}.rs
and src/src/arch/riscv64/memory/{address_space,fault}.rs), together with
theorems checking the natural-language specification against it.

Raw 64-bit page-table descriptors are embedded as `Nat` (the Rust code uses
`u64`; every operation below only sets, clears or reads bits 0..63, and
widths are taken modulo powers of two exactly where the source masks).
-/

namespace SOS

/-! ## Constants and basic data -/

/-- Smallest page size (crate::memory::PAGE_SIZE; pg_tables.rs derives
DESCRIPTORS_PER_PAGE = PAGE_SIZE / 8 = 512, so PAGE_SIZE = 4096). -/
def PAGE_SIZE : Nat := 4096

/-- crate::memory::PAGE_SHIFT (Sv48 L3 shift, pg_tables.rs line 122). -/
def PAGE_SHIFT : Nat := 12

/-- pg_tables.rs: descriptors per table page. -/
def DESCRIPTORS_PER_PAGE : Nat := PAGE_SIZE / 8

/-- Modelled from the spec: `PtePermissions`
(crate::memory::permissions, not under src/). Spec section 3 lists
independent read/write/execute/user bits plus a software cow bit, and
pg_descriptors.rs calls `PtePermissions::from_raw_bits(read, write,
execute, user, cow)` with five booleans. -/
structure PtePermissions where
  read : Bool
  write : Bool
  execute : Bool
  user : Bool
  cow : Bool
deriving DecidableEq, Repr

/-- pg_descriptors.rs `MemoryType`. -/
inductive MemoryType where
  | Device
  | Normal
deriving DecidableEq, Repr

/-! Bit-manipulation helpers mirroring the tock-registers
`reg.modify(FIELD::SET / FIELD::CLEAR)` operations on a `u64` register. -/

/-- Set bit `i` of a raw 64-bit value. -/
def setBit (d i : Nat) : Nat := d ||| (1 <<< i)

/-- Clear bit `i` of a raw 64-bit value (conjunction with the 64-bit
complement of the single-bit mask, as a register write does). -/
def clearBit (d i : Nat) : Nat := d &&& ((2 ^ 64 - 1) ^^^ (1 <<< i))

/-- Write bit `i` of a raw value to the boolean `b`
(`if b { FIELD::SET } else { FIELD::CLEAR }`). -/
def assignBit (d i : Nat) (b : Bool) : Nat := if b then setBit d i else clearBit d i

/-! ## Memory regions -/

/-- Modelled from the spec: PhysMemoryRegion (crate::memory::region, not
under src/) — a start address plus a byte size. -/
structure PhysMemoryRegion where
  start_address : Nat
  size : Nat
deriving DecidableEq, Repr

/-- Modelled from the spec: VirtMemoryRegion, as PhysMemoryRegion. -/
structure VirtMemoryRegion where
  start_address : Nat
  size : Nat
deriving DecidableEq, Repr

/-- Modelled from the spec: region page alignment (spec section 4.2, "both
regions are aligned to the smallest page size"): the start address is a
multiple of PAGE_SIZE. -/
def PhysMemoryRegion.is_page_aligned (r : PhysMemoryRegion) : Bool :=
  r.start_address % PAGE_SIZE == 0

/-- Modelled from the spec: `add_pages` advances the region cursor by `n`
pages and shrinks the remaining size accordingly (spec section 4.2,
"advance both cursors by that level's coverage"). Remaining sizes stay
multiples of PAGE_SIZE on every engine path, so the truncated subtraction
agrees with the source's usize arithmetic. -/
def PhysMemoryRegion.add_pages (r : PhysMemoryRegion) (n : Nat) : PhysMemoryRegion :=
  ⟨r.start_address + n * PAGE_SIZE, r.size - n * PAGE_SIZE⟩

def VirtMemoryRegion.is_page_aligned (r : VirtMemoryRegion) : Bool :=
  r.start_address % PAGE_SIZE == 0

def VirtMemoryRegion.add_pages (r : VirtMemoryRegion) (n : Nat) : VirtMemoryRegion :=
  ⟨r.start_address + n * PAGE_SIZE, r.size - n * PAGE_SIZE⟩

/-! ## Descriptors

Accessors translated from the `define_descriptor!` macro in
pg_descriptors.rs. The CommonFields bit layout: VALID = bit 0, READ = 1,
WRITE = 2, EXECUTE = 3, USER = 4, GLOBAL = 5, ACCESSED = 6, DIRTY = 7,
COW = 8, PPN = bits 10..53 (44 bits), PBMT = bits 61..62. All four level
descriptors share this code; the level only affects `map_shift` and
`could_map`. -/

/-- PageTableEntry::is_valid — V bit set. -/
def is_valid (d : Nat) : Bool := d.testBit 0

/-- CommonFields::PPN read: bits 10..53. -/
def ppn_field (d : Nat) : Nat := (d >>> 10) % 2 ^ 44

/-- TableMapper::next_table_address — `Some` iff V=1 and R=W=X=0; the
returned physical address is PPN << PAGE_SHIFT. -/
def next_table_address (d : Nat) : Option Nat :=
  if d.testBit 0 && !d.testBit 1 && !d.testBit 2 && !d.testBit 3 then
    some (ppn_field d <<< PAGE_SHIFT)
  else
    none

/-- TableMapper::new_next_table — zero register, then
`modify(VALID::SET + PPN.val(pa >> PAGE_SHIFT))` (the register field write
masks the value to the 44-bit field width). -/
def new_next_table (pa : Nat) : Nat :=
  (1 <<< 0) ||| (((pa >>> PAGE_SHIFT) % 2 ^ 44) <<< 10)

/-- Leaf permissions accessor (`permissions` in the macro): None when
invalid or when both R and X are clear; otherwise read is reported as
`true` together with the W/X/USER/COW bits. -/
def permissions (d : Nat) : Option PtePermissions :=
  if !d.testBit 0 then none
  else if !d.testBit 1 && !d.testBit 3 then none
  else some ⟨true, d.testBit 2, d.testBit 3, d.testBit 4, d.testBit 8⟩

/-- set_permissions: writes USER from the request, unconditionally sets
READ, then writes WRITE, EXECUTE and COW from the request (source order). -/
def set_permissions (d : Nat) (p : PtePermissions) : Nat :=
  assignBit (assignBit (assignBit (setBit (assignBit d 4 p.user) 1) 2 p.write) 3 p.execute) 8 p.cow

/-- PaMapper::could_map at the level with shift `s`, on a region and a
virtual address (pg_descriptors.rs lines 203-208): physical start and
virtual address aligned to the level's coverage, and the remaining size at
least that coverage. The source alignment test
`addr & ((1 << s) - 1) == 0` is written as `addr % 2 ^ s == 0`. -/
def could_map (s : Nat) (region : PhysMemoryRegion) (va : Nat) : Bool :=
  region.start_address % 2 ^ s == 0 && va % 2 ^ s == 0 && region.size ≥ 2 ^ s

/-- PaMapper::new_map_pa: zero register; write PPN = pa >> PAGE_SHIFT; set
VALID, ACCESSED, DIRTY; write PBMT = IO (value 2 at offset 61) for Device
and None (0) for Normal; finally apply `set_permissions`. The source also
asserts (panics) that `pa` is aligned to the level's coverage — an
assertion on a caller precondition (spec section 4.1), always satisfied by
the engine because `could_map` is checked first; the value computed below
is the value the non-panicking path produces. -/
def new_map_pa (pa : Nat) (mt : MemoryType) (p : PtePermissions) : Nat :=
  let base := ((pa >>> PAGE_SHIFT) % 2 ^ 44) <<< 10
  let base := setBit (setBit (setBit base 0) 6) 7
  let base := match mt with
    | MemoryType.Device => base ||| (2 <<< 61)
    | MemoryType.Normal => base
  set_permissions base p

/-- PaMapper::mapped_address — None when invalid or when R and X are both
clear; otherwise Some (PPN << PAGE_SHIFT). -/
def mapped_address (d : Nat) : Option Nat :=
  if !d.testBit 0 then none
  else if !d.testBit 1 && !d.testBit 3 then none
  else some (ppn_field d <<< PAGE_SHIFT)

/-- L3DescriptorState (pg_descriptors.rs). -/
inductive L3DescriptorState where
  | Invalid
  | Swapped
  | Valid
deriving DecidableEq, Repr

/-- L3Descriptor::SWAPPED_MASK = 1 << 63. -/
def SWAPPED_MASK : Nat := 1 <<< 63

/-- L3Descriptor::state. -/
def state (d : Nat) : L3DescriptorState :=
  if is_valid d then L3DescriptorState.Valid
  else if d &&& SWAPPED_MASK ≠ 0 then L3DescriptorState.Swapped
  else L3DescriptorState.Invalid

/-- L3Descriptor::mark_as_swapped — clear VALID, then set bit 63. -/
def mark_as_swapped (d : Nat) : Nat :=
  (clearBit d 0) ||| SWAPPED_MASK

namespace PteFlags

/-! Modelled from the spec: `PteFlags` is referenced by pg_walk.rs but its
definition is not under src/; the numeric values follow the CommonFields
bit layout of pg_descriptors.rs, which section 6 of the spec fixes as the
hardware-mandated Sv48 encoding. -/

def VALID : Nat := 1 <<< 0
def READ : Nat := 1 <<< 1
def WRITE : Nat := 1 <<< 2
def EXECUTE : Nat := 1 <<< 3
def USER : Nat := 1 <<< 4
def GLOBAL : Nat := 1 <<< 5
def ACCESSED : Nat := 1 <<< 6
def DIRTY : Nat := 1 <<< 7

end PteFlags

/-- Walk::make_flags (pg_walk.rs lines 140-160): base VALID|ACCESSED|DIRTY;
a writable mapping adds WRITE|READ, a non-writable one adds READ; EXECUTE
when requested; USER for user mappings, GLOBAL otherwise. -/
def make_flags (p : PtePermissions) (mt : MemoryType) : Nat :=
  let flags := PteFlags.VALID ||| PteFlags.ACCESSED ||| PteFlags.DIRTY
  let flags := if p.write then flags ||| PteFlags.WRITE ||| PteFlags.READ
               else flags ||| PteFlags.READ
  let flags := if p.execute then flags ||| PteFlags.EXECUTE else flags
  match mt, p.user with
  | _, true => flags ||| PteFlags.USER
  | _, false => flags ||| PteFlags.GLOBAL

/-! ## The mapping engine of pg_tables.rs

The machine state holds the page-table memory (`mem tablePa idx` is the raw
descriptor at slot `idx` of the table page at physical address `tablePa`),
the allocator free list (`PageAllocator::allocate_page_table` pops its
head; an empty list is allocator exhaustion, surfacing as NoMemory), and an
event log recording every `set_desc` descriptor write and every
`TLBInvalidator::invalidate_page` call, in program order. -/

/-- Observable engine actions, logged in order. -/
inductive Event where
  | writeDesc (shift tablePa idx desc : Nat)
  | invalPage (va : Nat)
deriving DecidableEq, Repr

/-- Machine state threaded through one engine call. -/
structure Machine where
  mem : Nat → Nat → Nat
  free : List Nat
  events : List Event

/-- MapError (crate::error, not under src/; variants as raised by
pg_tables.rs and named by spec section 7). -/
inductive MapError where
  | SizeMismatch
  | TooSmall
  | PhysNotAligned
  | VirtNotAligned
  | NoMemory
  | AlreadyMapped
deriving DecidableEq, Repr

/-- PgTable::pg_index — `(va >> SHIFT) & LEVEL_MASK`. -/
def pg_index (shift va : Nat) : Nat := (va >>> shift) % DESCRIPTORS_PER_PAGE

/-- PgTable::get_desc — volatile read of one slot. -/
def get_desc (m : Machine) (shift tablePa va : Nat) : Nat :=
  m.mem tablePa (pg_index shift va)

/-- PgTable::set_desc — volatile write of one slot. Faithful to the
source: the `_invalidator` parameter is ignored, so no invalidation event
is logged here (pg_tables.rs lines 105-113; the comment there notes that
sfence.vma is "typically" needed but the call is absent). -/
def set_desc (m : Machine) (shift tablePa va desc : Nat) : Machine :=
  { m with
    mem := fun t i => if t = tablePa ∧ i = pg_index shift va then desc else m.mem t i,
    events := m.events ++ [Event.writeDesc shift tablePa (pg_index shift va) desc] }

/-- TLBInvalidator::invalidate_page, as the engine would observe it: the
pg_tables.rs mapping engine never calls this. -/
def invalidate_page (m : Machine) (va : Nat) : Machine :=
  { m with events := m.events ++ [Event.invalPage va] }

/-- The `core::ptr::write_bytes(..., 0, PAGE_SIZE)` zeroing of a freshly
allocated table page in map_at_level. -/
def zero_table (m : Machine) (tablePa : Nat) : Machine :=
  { m with mem := fun t i => if t = tablePa then 0 else m.mem t i }

/-- map_at_level (pg_tables.rs lines 266-305): reuse an existing child
table; a valid non-table entry is AlreadyMapped; otherwise allocate a
fresh child page, zero it, and install a table descriptor for it. Errors
carry the machine state at the failure point. -/
def map_at_level (shift tablePa va : Nat) (m : Machine) :
    Except (MapError × Machine) (Nat × Machine) :=
  let desc := get_desc m shift tablePa va
  match next_table_address desc with
  | some pa => Except.ok (pa, m)
  | none =>
    if is_valid desc then Except.error (MapError.AlreadyMapped, m)
    else
      match m.free with
      | [] => Except.error (MapError.NoMemory, m)
      | newPa :: rest =>
        let m1 := zero_table { m with free := rest } newPa
        Except.ok (newPa, set_desc m1 shift tablePa va (new_next_table newPa))

/-- try_map_pa (pg_tables.rs lines 225-264): when the level could map the
region at this address, fail with AlreadyMapped if the slot holds any
valid descriptor, else install the leaf and report how many smallest
pages were covered (`1 << (map_shift() - 12)`). -/
def try_map_pa (shift tablePa va : Nat) (phys : PhysMemoryRegion)
    (mt : MemoryType) (p : PtePermissions) (m : Machine) :
    Except (MapError × Machine) (Option Nat × Machine) :=
  if could_map shift phys va then
    if is_valid (get_desc m shift tablePa va) then
      Except.error (MapError.AlreadyMapped, m)
    else
      Except.ok (some (1 <<< (shift - 12)),
        set_desc m shift tablePa va (new_map_pa phys.start_address mt p))
  else
    Except.ok (none, m)

/-- MapAttributes (pg_tables.rs). -/
structure MapAttributes where
  phys : PhysMemoryRegion
  virt : VirtMemoryRegion
  mem_type : MemoryType
  perms : PtePermissions

/-- One iteration of the `while attrs.virt.size() > 0` loop of map_range
(pg_tables.rs lines 195-220): try a 1 GiB leaf at L1, then a 2 MiB leaf at
L2, then fall through to a 4 KiB leaf at L3, descending (and lazily
creating) one table level before each attempt; `next` continues the loop
on the advanced cursors. -/
def map_range_step
    (next : VirtMemoryRegion → PhysMemoryRegion → Machine → Option MapError × Machine)
    (l0 : Nat) (mt : MemoryType) (p : PtePermissions)
    (virt : VirtMemoryRegion) (phys : PhysMemoryRegion) (m : Machine) :
    Option MapError × Machine :=
  if virt.size = 0 then (none, m)
  else
    let va := virt.start_address
    match map_at_level 39 l0 va m with
    | Except.error (e, m1) => (some e, m1)
    | Except.ok (l1, m1) =>
      match try_map_pa 30 l1 va phys mt p m1 with
      | Except.error (e, m2) => (some e, m2)
      | Except.ok (some pgs, m2) => next (virt.add_pages pgs) (phys.add_pages pgs) m2
      | Except.ok (none, m2) =>
        match map_at_level 30 l1 va m2 with
        | Except.error (e, m3) => (some e, m3)
        | Except.ok (l2, m3) =>
          match try_map_pa 21 l2 va phys mt p m3 with
          | Except.error (e, m4) => (some e, m4)
          | Except.ok (some pgs, m4) => next (virt.add_pages pgs) (phys.add_pages pgs) m4
          | Except.ok (none, m4) =>
            match map_at_level 21 l2 va m4 with
            | Except.error (e, m5) => (some e, m5)
            | Except.ok (l3, m5) =>
              match try_map_pa 12 l3 va phys mt p m5 with
              | Except.error (e, m6) => (some e, m6)
              | Except.ok (_, m6) => next (virt.add_pages 1) (phys.add_pages 1) m6

/-- The map_range loop, with an explicit fuel bound. Each iteration either
errors out or advances the cursors by at least one page, so
`fuel := attrs.virt.size()` (what `map_range` passes) always exceeds the
iteration count and the fuel-exhaustion branch is unreachable from
`map_range`. -/
def map_range_loop (fuel l0 : Nat) (mt : MemoryType) (p : PtePermissions)
    (virt : VirtMemoryRegion) (phys : PhysMemoryRegion) (m : Machine) :
    Option MapError × Machine :=
  match fuel with
  | 0 => (none, m)
  | Nat.succ fuel => map_range_step (map_range_loop fuel l0 mt p) l0 mt p virt phys m

/-- map_range (pg_tables.rs lines 170-223): the four precondition checks
in source order, then the mapping loop. -/
def map_range (l0 : Nat) (a : MapAttributes) (m : Machine) :
    Option MapError × Machine :=
  if a.phys.size ≠ a.virt.size then (some MapError.SizeMismatch, m)
  else if a.phys.size < PAGE_SIZE then (some MapError.TooSmall, m)
  else if !a.phys.is_page_aligned then (some MapError.PhysNotAligned, m)
  else if !a.virt.is_page_aligned then (some MapError.VirtNotAligned, m)
  else map_range_loop a.virt.size l0 a.mem_type a.perms a.virt a.phys m

/-- An event is a leaf-descriptor write at the level with shift `s` when it
is a `set_desc` whose descriptor reads back as a mapped leaf. -/
def is_leaf_write (s : Nat) : Event → Bool
  | Event.writeDesc sh _ _ d => sh == s && (mapped_address d).isSome
  | _ => false

/-- Number of leaf-descriptor writes at the level with shift `s`. -/
def leafWrites (evs : List Event) (s : Nat) : Nat :=
  (evs.filter (is_leaf_write s)).length

/-- Number of TLB invalidations issued. -/
def countInval (evs : List Event) : Nat :=
  (evs.filter fun e => match e with
    | Event.invalPage _ => true
    | _ => false).length

/-! ## Region walker and address-space operations (address_space.rs) -/

/-- Modelled from the spec: `walk_and_modify_region` is called by
address_space.rs but its definition is not under src/ (the pg_walk.rs in
src/ holds a different, incompatible draft engine). Spec section 4.3: for
a virtual region, visit every currently-valid leaf descriptor inside the
region, invoke the callback `(VA, Descriptor) -> Descriptor` and write
back its result; everything else is untouched. The leaf level is viewed
flat: `tbl i` is the L3 descriptor covering page index `i` (va >> 12). -/
def walk_and_modify_region (tbl : Nat → Nat) (startPage nPages : Nat)
    (f : Nat → Nat → Nat) : Nat → Nat :=
  fun i =>
    if startPage ≤ i ∧ i < startPage + nPages ∧ is_valid (tbl i) then
      f (i <<< PAGE_SHIFT) (tbl i)
    else tbl i

/-- The per-leaf callback of RiscvProcessAddressSpace::protect_range
(address_space.rs lines 135-142): an all-clear (execute, read, write)
request marks the descriptor swapped, anything else rewrites its
permissions. -/
def protect_callback (perms : PtePermissions) (_va desc : Nat) : Nat :=
  match perms.execute, perms.read, perms.write with
  | false, false, false => mark_as_swapped desc
  | _, _, _ => set_permissions desc perms

/-- RiscvProcessAddressSpace::protect_range (address_space.rs lines
129-143): walk the region applying `protect_callback`. -/
def protect_range (tbl : Nat → Nat) (startPage nPages : Nat)
    (perms : PtePermissions) : Nat → Nat :=
  walk_and_modify_region tbl startPage nPages (protect_callback perms)

namespace RiscvProcessAddressSpace

/-- RiscvProcessAddressSpace::new (address_space.rs lines 36-79), at the
root-table level: allocate a zeroed root (PageTableAllocator uses
ClaimedPage::alloc_zeroed), then — when the kernel address space is
initialized (`KERN_ADDR_SPACE.get()` is Some) — copy_nonoverlapping the
256 root entries starting at index 256 from the kernel root table. The
result maps each root index to its raw descriptor value. -/
def new (kern : Option (Fin 512 → Nat)) : Fin 512 → Nat :=
  match kern with
  | some k => fun i => if 256 ≤ i.val then k i else 0
  | none => fun _ => 0

end RiscvProcessAddressSpace

/-! ## Page-fault handling (fault.rs) -/

/-- FaultResolution (crate::memory::fault, consumed by fault.rs). The
Deferred future payload is irrelevant to the handler's control flow. -/
inductive FaultResolution where
  | Resolved
  | Denied
  | Deferred
deriving DecidableEq, Repr

/-- The externally visible outcome of the user-mode branch of
handle_page_fault. -/
inductive FaultOutcome where
  | returnOk
  | kernelPanic
  | spawnDeferredWork
deriving DecidableEq, Repr

/-- The user-mode branch of handle_page_fault (fault.rs lines 54-70):
Resolved returns Ok(()); Denied executes
`panic!("SIGSEGV: Process {} accessed ...")` — a kernel panic — and
Deferred spawns deferred kernel work. -/
def handle_user_page_fault (r : FaultResolution) : FaultOutcome :=
  match r with
  | FaultResolution.Resolved => FaultOutcome.returnOk
  | FaultResolution.Denied => FaultOutcome.kernelPanic
  | FaultResolution.Deferred => FaultOutcome.spawnDeferredWork

/-! ## Concrete fixtures for witnesses -/

/-- A machine with all table pages zeroed, three free pages, empty log. -/
def engineM0 : Machine :=
  { mem := fun _ _ => 0, free := [8192, 12288, 16384], events := [] }

/-- One page mapped at virtual 0x5000 to physical 0x6000, read-only. -/
def engineAttrs : MapAttributes :=
  ⟨⟨24576, 4096⟩, ⟨20480, 4096⟩, MemoryType.Normal,
   ⟨true, false, false, false, false⟩⟩

/-- The machine after mapping `engineAttrs` once from root table 4096:
tables 8192 (L1), 12288 (L2), 16384 (L3) are allocated and an L3 leaf is
installed at index 5 of table 16384. -/
def engineM1 : Machine := (map_range 4096 engineAttrs engineM0).2

/-! ## Generic bit lemmas -/

theorem testBit_setBit (d i j : Nat) :
    (setBit d i).testBit j = (d.testBit j || decide (i = j)) := by
  simp [setBit, Nat.testBit_or, Nat.shiftLeft_eq, Nat.testBit_two_pow]

theorem testBit_clearBit (d i j : Nat) (hj : j < 64) :
    (clearBit d i).testBit j = (d.testBit j && !decide (i = j)) := by
  simp only [clearBit, Nat.testBit_and, Nat.testBit_xor, Nat.shiftLeft_eq,
    Nat.testBit_two_pow, one_mul]
  rw [Nat.testBit_two_pow_sub_one]
  simp [hj]

theorem testBit_assignBit (d i j : Nat) (b : Bool) (hj : j < 64) :
    (assignBit d i b).testBit j = if i = j then b else d.testBit j := by
  cases b <;> by_cases h : i = j <;>
    simp [assignBit, testBit_setBit, testBit_clearBit, hj, h]

theorem testBit_one (j : Nat) : (1 : Nat).testBit j = decide (0 = j) := by
  rw [← pow_zero 2]
  exact Nat.testBit_two_pow

/-! ## Descriptor-constructor lemmas -/

theorem new_next_table_shiftRight (pa : Nat) :
    new_next_table pa >>> 10 = (pa >>> PAGE_SHIFT) % 2 ^ 44 := by
  apply Nat.eq_of_testBit_eq
  intro j
  simp only [new_next_table, Nat.testBit_shiftRight, Nat.testBit_lor,
    Nat.testBit_shiftLeft, testBit_one]
  have h0 : decide (0 = 10 + j) = false := by
    simp
    omega
  have h1 : decide (10 + j ≥ 10) = true := by simp
  simp [h0, h1]

theorem new_next_table_low (pa : Nat) (j : Nat) (h1 : 0 < j) (h2 : j < 10) :
    (new_next_table pa).testBit j = false := by
  simp only [new_next_table, Nat.testBit_lor, Nat.testBit_shiftLeft, testBit_one]
  have h0 : decide (0 = j) = false := by
    simp
    omega
  have hge : decide (j ≥ 10) = false := by
    simp
    omega
  simp [h0, hge]

theorem set_permissions_testBit_one (d : Nat) (p : PtePermissions) :
    (set_permissions d p).testBit 1 = true := by
  simp [set_permissions, testBit_assignBit, testBit_setBit]

theorem set_permissions_testBit_ne (d : Nat) (p : PtePermissions) (j : Nat)
    (hj : j < 64) (h1 : j ≠ 1) (h2 : j ≠ 2) (h3 : j ≠ 3) (h4 : j ≠ 4)
    (h8 : j ≠ 8) :
    (set_permissions d p).testBit j = d.testBit j := by
  unfold set_permissions
  rw [testBit_assignBit _ _ _ _ hj, if_neg (fun h => h8 h.symm),
      testBit_assignBit _ _ _ _ hj, if_neg (fun h => h3 h.symm),
      testBit_assignBit _ _ _ _ hj, if_neg (fun h => h2 h.symm),
      testBit_setBit,
      testBit_assignBit _ _ _ _ hj, if_neg (fun h => h4 h.symm)]
  have hd : decide (1 = j) = false := decide_eq_false (fun h => h1 h.symm)
  rw [hd, Bool.or_false]

theorem set_permissions_testBit_two (d : Nat) (p : PtePermissions) :
    (set_permissions d p).testBit 2 = p.write := by
  unfold set_permissions
  rw [testBit_assignBit _ _ _ _ (by norm_num), if_neg (by norm_num),
      testBit_assignBit _ _ _ _ (by norm_num), if_neg (by norm_num),
      testBit_assignBit _ _ _ _ (by norm_num), if_pos rfl]

theorem set_permissions_testBit_three (d : Nat) (p : PtePermissions) :
    (set_permissions d p).testBit 3 = p.execute := by
  unfold set_permissions
  rw [testBit_assignBit _ _ _ _ (by norm_num), if_neg (by norm_num),
      testBit_assignBit _ _ _ _ (by norm_num), if_pos rfl]

theorem new_map_pa_testBit_zero (pa : Nat) (mt : MemoryType) (p : PtePermissions) :
    (new_map_pa pa mt p).testBit 0 = true := by
  cases mt
  case Device =>
    rw [show new_map_pa pa MemoryType.Device p
        = set_permissions ((setBit (setBit (setBit
            (((pa >>> PAGE_SHIFT) % 2 ^ 44) <<< 10) 0) 6) 7) ||| (2 <<< 61)) p
      from rfl]
    rw [set_permissions_testBit_ne _ _ 0 (by norm_num) (by norm_num)
      (by norm_num) (by norm_num) (by norm_num) (by norm_num)]
    rw [Nat.testBit_or, testBit_setBit, testBit_setBit, testBit_setBit]
    simp
  case Normal =>
    rw [show new_map_pa pa MemoryType.Normal p
        = set_permissions (setBit (setBit (setBit
            (((pa >>> PAGE_SHIFT) % 2 ^ 44) <<< 10) 0) 6) 7) p
      from rfl]
    rw [set_permissions_testBit_ne _ _ 0 (by norm_num) (by norm_num)
      (by norm_num) (by norm_num) (by norm_num) (by norm_num)]
    rw [testBit_setBit, testBit_setBit, testBit_setBit]
    simp

theorem new_map_pa_testBit_one (pa : Nat) (mt : MemoryType) (p : PtePermissions) :
    (new_map_pa pa mt p).testBit 1 = true := by
  cases mt <;> exact set_permissions_testBit_one _ p

theorem mapped_address_new_map_pa (pa : Nat) (mt : MemoryType) (p : PtePermissions) :
    (mapped_address (new_map_pa pa mt p)).isSome = true := by
  rw [mapped_address, new_map_pa_testBit_zero, new_map_pa_testBit_one]
  simp

theorem mapped_address_new_next_table (pa : Nat) :
    mapped_address (new_next_table pa) = none := by
  have hv : (new_next_table pa).testBit 0 = true := by
    simp [new_next_table, Nat.testBit_lor, testBit_one]
  have hb1 := new_next_table_low pa 1 (by omega) (by omega)
  have hb3 := new_next_table_low pa 3 (by omega) (by omega)
  rw [mapped_address, hv, hb1, hb3]
  simp

theorem state_mark_as_swapped (d : Nat) :
    state (mark_as_swapped d) = L3DescriptorState.Swapped := by
  have hb0 : (mark_as_swapped d).testBit 0 = false := by
    simp only [mark_as_swapped, SWAPPED_MASK, Nat.testBit_or]
    rw [testBit_clearBit _ _ _ (by norm_num)]
    simp [Nat.testBit_shiftLeft, testBit_one]
  have hb63 : (mark_as_swapped d).testBit 63 = true := by
    simp only [mark_as_swapped, SWAPPED_MASK, Nat.testBit_or]
    simp only [Bool.or_eq_true]
    exact Or.inr (by decide)
  have hmask : mark_as_swapped d &&& SWAPPED_MASK ≠ 0 := by
    intro h0
    have := congrArg (fun x => x.testBit 63) h0
    simp only [Nat.testBit_and, Nat.zero_testBit, hb63] at this
    rw [show SWAPPED_MASK.testBit 63 = true by decide] at this
    simp at this
  rw [state, is_valid, hb0]
  simp [hmask]

/-! ## Loop lemmas -/

/-- The loop is a no-op returning success once the remaining size is zero,
for any fuel. -/
theorem map_range_loop_size_zero (fuel l0 : Nat) (mt : MemoryType)
    (p : PtePermissions) (virt : VirtMemoryRegion) (phys : PhysMemoryRegion)
    (m : Machine) (h : virt.size = 0) :
    map_range_loop fuel l0 mt p virt phys m = (none, m) := by
  cases fuel <;> simp [map_range_loop, map_range_step, h]

/-- Unfold one loop iteration for any nonzero fuel. -/
theorem map_range_loop_unfold (fuel l0 : Nat) (mt : MemoryType)
    (p : PtePermissions) (virt : VirtMemoryRegion) (phys : PhysMemoryRegion)
    (m : Machine) (h : fuel ≠ 0) :
    map_range_loop fuel l0 mt p virt phys m
      = map_range_step (map_range_loop (fuel - 1) l0 mt p) l0 mt p virt phys m := by
  cases fuel with
  | zero => exact absurd rfl h
  | succ n => rfl

/-! ## Claim theorems -/

/-- C1: every precondition violation of map_range — size mismatch, size
below the smallest page, unaligned physical region, unaligned virtual
region — returns the corresponding error with the machine completely
untouched: no table memory change, no allocation, no logged write. The
checks fire in source order. -/
theorem C1_precondition_errors_no_mutation (l0 : Nat) (a : MapAttributes)
    (m : Machine) :
    (a.phys.size ≠ a.virt.size →
      map_range l0 a m = (some MapError.SizeMismatch, m))
  ∧ (a.phys.size = a.virt.size → a.phys.size < PAGE_SIZE →
      map_range l0 a m = (some MapError.TooSmall, m))
  ∧ (a.phys.size = a.virt.size → ¬ a.phys.size < PAGE_SIZE →
      a.phys.is_page_aligned = false →
      map_range l0 a m = (some MapError.PhysNotAligned, m))
  ∧ (a.phys.size = a.virt.size → ¬ a.phys.size < PAGE_SIZE →
      a.phys.is_page_aligned = true → a.virt.is_page_aligned = false →
      map_range l0 a m = (some MapError.VirtNotAligned, m)) := by
  refine ⟨?_, ?_, ?_, ?_⟩
  · intro h1
    simp [map_range, h1]
  · intro h1 h2
    have h2' : a.virt.size < PAGE_SIZE := by omega
    simp [map_range, h1, h2, h2']
  · intro h1 h2 h3
    have h2' : ¬ a.virt.size < PAGE_SIZE := by omega
    simp [map_range, h1, h2, h2', h3]
  · intro h1 h2 h3 h4
    have h2' : ¬ a.virt.size < PAGE_SIZE := by omega
    simp [map_range, h1, h2, h2', h3, h4]

/-- C1 witness: each of the four precondition violations at concrete
attributes, on the concrete machine `engineM0`, which is returned
unchanged. -/
theorem C1_precondition_errors_no_mutation_witness :
    map_range 4096 ⟨⟨0, 4096⟩, ⟨0, 8192⟩, MemoryType.Normal,
      ⟨true, false, false, false, false⟩⟩ engineM0
      = (some MapError.SizeMismatch, engineM0)
  ∧ map_range 4096 ⟨⟨0, 0⟩, ⟨0, 0⟩, MemoryType.Normal,
      ⟨true, false, false, false, false⟩⟩ engineM0
      = (some MapError.TooSmall, engineM0)
  ∧ map_range 4096 ⟨⟨5, 4096⟩, ⟨0, 4096⟩, MemoryType.Normal,
      ⟨true, false, false, false, false⟩⟩ engineM0
      = (some MapError.PhysNotAligned, engineM0)
  ∧ map_range 4096 ⟨⟨0, 4096⟩, ⟨5, 4096⟩, MemoryType.Normal,
      ⟨true, false, false, false, false⟩⟩ engineM0
      = (some MapError.VirtNotAligned, engineM0) :=
  ⟨(C1_precondition_errors_no_mutation 4096 _ engineM0).1 (by decide),
   (C1_precondition_errors_no_mutation 4096 _ engineM0).2.1 rfl (by decide),
   (C1_precondition_errors_no_mutation 4096 _ engineM0).2.2.1 rfl
     (by decide) (by decide),
   (C1_precondition_errors_no_mutation 4096 _ engineM0).2.2.2 rfl
     (by decide) (by decide) (by decide)⟩

/-- C2: the collision policy of the engine. Installing a leaf where the
slot already holds any valid descriptor fails with AlreadyMapped and
returns the machine unchanged (the existing mapping survives); descending
through an entry that already points to a child table silently reuses it
without touching the machine; descending through an Invalid entry installs
a freshly allocated, zeroed child table. -/
theorem C2_collision_policy (shift tablePa va : Nat) (phys : PhysMemoryRegion)
    (mt : MemoryType) (p : PtePermissions) (m : Machine) :
    (could_map shift phys va = true →
      is_valid (get_desc m shift tablePa va) = true →
      try_map_pa shift tablePa va phys mt p m
        = Except.error (MapError.AlreadyMapped, m))
  ∧ (∀ pa, next_table_address (get_desc m shift tablePa va) = some pa →
      map_at_level shift tablePa va m = Except.ok (pa, m))
  ∧ (∀ newPa rest, next_table_address (get_desc m shift tablePa va) = none →
      is_valid (get_desc m shift tablePa va) = false →
      m.free = newPa :: rest →
      map_at_level shift tablePa va m
        = Except.ok (newPa,
            set_desc (zero_table { m with free := rest } newPa)
              shift tablePa va (new_next_table newPa))) := by
  refine ⟨?_, ?_, ?_⟩
  · intro h1 h2
    simp [try_map_pa, h1, h2]
  · intro pa h
    simp [map_at_level, h]
  · intro newPa rest h1 h2 h3
    simp [map_at_level, h1, h2, h3]

/-- C2 witness: on the concrete machine `engineM1` that already maps page
0x5000, a second leaf install at L3 fails with AlreadyMapped leaving the
machine unchanged; the root entry's existing child table 8192 is silently
reused; on the initial machine the Invalid root entry receives the fresh
child 8192; and the full second `map_range` call fails with AlreadyMapped
returning the machine of the first call unchanged. -/
theorem C2_collision_policy_witness :
    try_map_pa 12 16384 20480 ⟨24576, 4096⟩ MemoryType.Normal
      ⟨true, false, false, false, false⟩ engineM1
      = Except.error (MapError.AlreadyMapped, engineM1)
  ∧ map_at_level 39 4096 20480 engineM1 = Except.ok (8192, engineM1)
  ∧ map_at_level 39 4096 20480 engineM0
      = Except.ok (8192,
          set_desc (zero_table { engineM0 with free := [12288, 16384] } 8192)
            39 4096 20480 (new_next_table 8192))
  ∧ map_range 4096 engineAttrs engineM1
      = (some MapError.AlreadyMapped, engineM1) :=
  ⟨(C2_collision_policy 12 16384 20480 ⟨24576, 4096⟩ MemoryType.Normal
      ⟨true, false, false, false, false⟩ engineM1).1 (by decide) (by decide),
   (C2_collision_policy 39 4096 20480 ⟨24576, 4096⟩ MemoryType.Normal
      ⟨true, false, false, false, false⟩ engineM1).2.1 8192 (by decide),
   (C2_collision_policy 39 4096 20480 ⟨24576, 4096⟩ MemoryType.Normal
      ⟨true, false, false, false, false⟩ engineM0).2.2 8192 [12288, 16384]
      (by decide) (by decide) rfl,
   rfl⟩

/-- C3: largest-eligible-level-first. On a machine whose tables are empty
and whose allocator can serve the walk, mapping a region whose physical
start, virtual start and length are all one 1 GiB superpage installs
exactly one leaf descriptor, at L1 (shift 30), and none at L2 or the 4 KiB
L3 level; mapping one 2 MiB superpage installs exactly one leaf, at L2
(shift 21), and none at L1 or L3. -/
theorem C3_superpage_promotion :
    (∀ (l0 t1 : Nat) (rest : List Nat) (va pa : Nat) (mt : MemoryType)
        (p : PtePermissions) (m : Machine),
      (∀ t i, m.mem t i = 0) → m.free = t1 :: rest → m.events = [] →
      t1 ≠ l0 → va % 2 ^ 30 = 0 → pa % 2 ^ 30 = 0 →
      (map_range l0 ⟨⟨pa, 2 ^ 30⟩, ⟨va, 2 ^ 30⟩, mt, p⟩ m).1 = none
      ∧ leafWrites (map_range l0 ⟨⟨pa, 2 ^ 30⟩, ⟨va, 2 ^ 30⟩, mt, p⟩ m).2.events 30 = 1
      ∧ leafWrites (map_range l0 ⟨⟨pa, 2 ^ 30⟩, ⟨va, 2 ^ 30⟩, mt, p⟩ m).2.events 21 = 0
      ∧ leafWrites (map_range l0 ⟨⟨pa, 2 ^ 30⟩, ⟨va, 2 ^ 30⟩, mt, p⟩ m).2.events 12 = 0)
  ∧ (∀ (l0 t1 t2 : Nat) (rest : List Nat) (va pa : Nat) (mt : MemoryType)
        (p : PtePermissions) (m : Machine),
      (∀ t i, m.mem t i = 0) → m.free = t1 :: t2 :: rest → m.events = [] →
      t1 ≠ l0 → t2 ≠ t1 → va % 2 ^ 21 = 0 → pa % 2 ^ 21 = 0 →
      (map_range l0 ⟨⟨pa, 2 ^ 21⟩, ⟨va, 2 ^ 21⟩, mt, p⟩ m).1 = none
      ∧ leafWrites (map_range l0 ⟨⟨pa, 2 ^ 21⟩, ⟨va, 2 ^ 21⟩, mt, p⟩ m).2.events 21 = 1
      ∧ leafWrites (map_range l0 ⟨⟨pa, 2 ^ 21⟩, ⟨va, 2 ^ 21⟩, mt, p⟩ m).2.events 30 = 0
      ∧ leafWrites (map_range l0 ⟨⟨pa, 2 ^ 21⟩, ⟨va, 2 ^ 21⟩, mt, p⟩ m).2.events 12 = 0) := by
  constructor
  · intro l0 t1 rest va pa mt p m hmem hfree hev ht1 hva hpa
    have hva12 : va % 4096 = 0 := by
      have h := Nat.mod_mod_of_dvd va (show (4096 : Nat) ∣ 2 ^ 30 by norm_num)
      rw [hva] at h
      simpa using h.symm
    have hpa12 : pa % 4096 = 0 := by
      have h := Nat.mod_mod_of_dvd pa (show (4096 : Nat) ∣ 2 ^ 30 by norm_num)
      rw [hpa] at h
      simpa using h.symm
    norm_num at hva hpa ⊢
    have e1 : map_at_level 39 l0 va m
        = Except.ok (t1, set_desc (zero_table { m with free := rest } t1)
            39 l0 va (new_next_table t1)) := by
      simp [map_at_level, get_desc, hmem, next_table_address, is_valid,
        Nat.zero_testBit, hfree]
    have e2 : try_map_pa 30 t1 va ⟨pa, 1073741824⟩ mt p
          (set_desc (zero_table { m with free := rest } t1) 39 l0 va
            (new_next_table t1))
        = Except.ok (some (1 <<< 18),
            set_desc (set_desc (zero_table { m with free := rest } t1) 39 l0 va
                (new_next_table t1))
              30 t1 va (new_map_pa pa mt p)) := by
      simp [try_map_pa, could_map, get_desc, set_desc, zero_table,
        ht1, is_valid, Nat.zero_testBit]
      exact ⟨hpa, hva⟩
    have hmr : map_range l0 ⟨⟨pa, 1073741824⟩, ⟨va, 1073741824⟩, mt, p⟩ m
        = map_range_loop 1073741824 l0 mt p ⟨va, 1073741824⟩ ⟨pa, 1073741824⟩ m := by
      norm_num [map_range, PhysMemoryRegion.is_page_aligned,
        VirtMemoryRegion.is_page_aligned, hpa12, hva12, PAGE_SIZE]
    have hstep : map_range_loop 1073741824 l0 mt p ⟨va, 1073741824⟩
          ⟨pa, 1073741824⟩ m
        = (none, set_desc (set_desc (zero_table { m with free := rest } t1)
              39 l0 va (new_next_table t1)) 30 t1 va (new_map_pa pa mt p)) := by
      rw [map_range_loop_unfold 1073741824 l0 mt p ⟨va, 1073741824⟩
        ⟨pa, 1073741824⟩ m (by norm_num)]
      simp only [map_range_step]
      rw [if_neg (by simp)]
      simp only [e1, e2]
      apply map_range_loop_size_zero
      simp [VirtMemoryRegion.add_pages, PAGE_SIZE, Nat.shiftLeft_eq]
    rw [hmr, hstep]
    simp [leafWrites, is_leaf_write, set_desc, zero_table, hev,
      mapped_address_new_map_pa, mapped_address_new_next_table]
  · intro l0 t1 t2 rest va pa mt p m hmem hfree hev ht1 ht21 hva hpa
    have hva12 : va % 4096 = 0 := by
      have h := Nat.mod_mod_of_dvd va (show (4096 : Nat) ∣ 2 ^ 21 by norm_num)
      rw [hva] at h
      simpa using h.symm
    have hpa12 : pa % 4096 = 0 := by
      have h := Nat.mod_mod_of_dvd pa (show (4096 : Nat) ∣ 2 ^ 21 by norm_num)
      rw [hpa] at h
      simpa using h.symm
    norm_num at hva hpa ⊢
    have e1 : map_at_level 39 l0 va m
        = Except.ok (t1, set_desc (zero_table { m with free := t2 :: rest } t1)
            39 l0 va (new_next_table t1)) := by
      simp [map_at_level, get_desc, hmem, next_table_address, is_valid,
        Nat.zero_testBit, hfree]
    have e2 : try_map_pa 30 t1 va ⟨pa, 2097152⟩ mt p
          (set_desc (zero_table { m with free := t2 :: rest } t1) 39 l0 va
            (new_next_table t1))
        = Except.ok (none,
            set_desc (zero_table { m with free := t2 :: rest } t1) 39 l0 va
              (new_next_table t1)) := by
      simp [try_map_pa, could_map]
    have e3 : map_at_level 30 t1 va
          (set_desc (zero_table { m with free := t2 :: rest } t1) 39 l0 va
            (new_next_table t1))
        = Except.ok (t2,
            set_desc (zero_table
              { set_desc (zero_table { m with free := t2 :: rest } t1) 39 l0 va
                  (new_next_table t1) with free := rest } t2)
              30 t1 va (new_next_table t2)) := by
      simp [map_at_level, get_desc, set_desc, zero_table, hmem, ht1,
        next_table_address, is_valid, Nat.zero_testBit]
    have e4 : try_map_pa 21 t2 va ⟨pa, 2097152⟩ mt p
          (set_desc (zero_table
              { set_desc (zero_table { m with free := t2 :: rest } t1) 39 l0 va
                  (new_next_table t1) with free := rest } t2)
              30 t1 va (new_next_table t2))
        = Except.ok (some (1 <<< 9),
            set_desc (set_desc (zero_table
                { set_desc (zero_table { m with free := t2 :: rest } t1) 39 l0 va
                    (new_next_table t1) with free := rest } t2)
                30 t1 va (new_next_table t2))
              21 t2 va (new_map_pa pa mt p)) := by
      simp [try_map_pa, could_map, get_desc, set_desc, zero_table,
        ht21, is_valid, Nat.zero_testBit]
      exact ⟨hpa, hva⟩
    have hmr : map_range l0 ⟨⟨pa, 2097152⟩, ⟨va, 2097152⟩, mt, p⟩ m
        = map_range_loop 2097152 l0 mt p ⟨va, 2097152⟩ ⟨pa, 2097152⟩ m := by
      norm_num [map_range, PhysMemoryRegion.is_page_aligned,
        VirtMemoryRegion.is_page_aligned, hpa12, hva12, PAGE_SIZE]
    have hstep : map_range_loop 2097152 l0 mt p ⟨va, 2097152⟩ ⟨pa, 2097152⟩ m
        = (none,
            set_desc (set_desc (zero_table
                { set_desc (zero_table { m with free := t2 :: rest } t1) 39 l0 va
                    (new_next_table t1) with free := rest } t2)
                30 t1 va (new_next_table t2))
              21 t2 va (new_map_pa pa mt p)) := by
      rw [map_range_loop_unfold 2097152 l0 mt p ⟨va, 2097152⟩
        ⟨pa, 2097152⟩ m (by norm_num)]
      simp only [map_range_step]
      rw [if_neg (by simp)]
      simp only [e1, e2, e3, e4]
      apply map_range_loop_size_zero
      simp [VirtMemoryRegion.add_pages, PAGE_SIZE, Nat.shiftLeft_eq]
    rw [hmr, hstep]
    simp [leafWrites, is_leaf_write, set_desc, zero_table, hev,
      mapped_address_new_map_pa, mapped_address_new_next_table]

/-- C3 witness: both superpage cases on the concrete zeroed machine
`engineM0` with root table 4096 — mapping 1 GiB at 1 GiB-aligned addresses
yields exactly one L1 leaf, and mapping 2 MiB at 2 MiB-aligned addresses
yields exactly one L2 leaf, with zero 4 KiB leaves in both runs. -/
theorem C3_superpage_promotion_witness :
    ((map_range 4096 ⟨⟨2 ^ 30, 2 ^ 30⟩, ⟨2 ^ 30, 2 ^ 30⟩, MemoryType.Normal,
        ⟨true, false, false, false, false⟩⟩ engineM0).1 = none
      ∧ leafWrites (map_range 4096 ⟨⟨2 ^ 30, 2 ^ 30⟩, ⟨2 ^ 30, 2 ^ 30⟩,
          MemoryType.Normal, ⟨true, false, false, false, false⟩⟩ engineM0).2.events 30 = 1
      ∧ leafWrites (map_range 4096 ⟨⟨2 ^ 30, 2 ^ 30⟩, ⟨2 ^ 30, 2 ^ 30⟩,
          MemoryType.Normal, ⟨true, false, false, false, false⟩⟩ engineM0).2.events 21 = 0
      ∧ leafWrites (map_range 4096 ⟨⟨2 ^ 30, 2 ^ 30⟩, ⟨2 ^ 30, 2 ^ 30⟩,
          MemoryType.Normal, ⟨true, false, false, false, false⟩⟩ engineM0).2.events 12 = 0)
  ∧ ((map_range 4096 ⟨⟨2 ^ 21, 2 ^ 21⟩, ⟨2 ^ 21, 2 ^ 21⟩, MemoryType.Normal,
        ⟨true, false, false, false, false⟩⟩ engineM0).1 = none
      ∧ leafWrites (map_range 4096 ⟨⟨2 ^ 21, 2 ^ 21⟩, ⟨2 ^ 21, 2 ^ 21⟩,
          MemoryType.Normal, ⟨true, false, false, false, false⟩⟩ engineM0).2.events 21 = 1
      ∧ leafWrites (map_range 4096 ⟨⟨2 ^ 21, 2 ^ 21⟩, ⟨2 ^ 21, 2 ^ 21⟩,
          MemoryType.Normal, ⟨true, false, false, false, false⟩⟩ engineM0).2.events 30 = 0
      ∧ leafWrites (map_range 4096 ⟨⟨2 ^ 21, 2 ^ 21⟩, ⟨2 ^ 21, 2 ^ 21⟩,
          MemoryType.Normal, ⟨true, false, false, false, false⟩⟩ engineM0).2.events 12 = 0) :=
  ⟨C3_superpage_promotion.1 4096 8192 [12288, 16384] (2 ^ 30) (2 ^ 30)

      MemoryType.Normal ⟨true, false, false, false, false⟩ engineM0
      (fun _ _ => rfl) rfl rfl (by norm_num) (by norm_num) (by norm_num),
   C3_superpage_promotion.2 4096 8192 12288 [16384] (2 ^ 21) (2 ^ 21)
      MemoryType.Normal ⟨true, false, false, false, false⟩ engineM0
      (fun _ _ => rfl) rfl rfl (by norm_num) (by norm_num) (by norm_num)
      (by norm_num)⟩

/-- C4: evaluation of the engine at the concrete one-page mapping
`engineAttrs` from the empty machine: the call succeeds and writes one L3
leaf descriptor, yet issues zero TLB invalidations through the supplied
Invalidator — pg_tables.rs threads the invalidator into set_desc but
set_desc ignores it; no invalidate_page call exists anywhere in the
engine's call path. -/
theorem C4_map_range_no_tlb_invalidation :
    (map_range 4096 engineAttrs engineM0).1 = none
  ∧ leafWrites (map_range 4096 engineAttrs engineM0).2.events 12 = 1
  ∧ countInval (map_range 4096 engineAttrs engineM0).2.events = 0 := by
  decide

/-- C5 counterexample to the claim as stated: on a table whose page 1
holds a valid read-only leaf, a protect_range request for the write-only
permission set (read = false, write = true, execute = false) rewrites the
descriptor's permissions to read ∧ write — not to the requested set,
whose read bit is clear. -/
theorem C5_protect_range_counterexample :
    ((permissions (protect_range
        (fun _ => new_map_pa 8192 MemoryType.Normal
          ⟨true, false, false, false, false⟩)
        1 1 ⟨false, true, false, false, false⟩ 1)
      == some ⟨false, true, false, false, false⟩) = false)
  ∧ permissions (protect_range
        (fun _ => new_map_pa 8192 MemoryType.Normal
          ⟨true, false, false, false, false⟩)
        1 1 ⟨false, true, false, false, false⟩ 1)
      = some ⟨true, true, false, false, false⟩ := by
  decide

/-- C5 (amended): for every affected mapped (valid) page of a
protect_range call, an all-empty permission request rewrites the
descriptor to the Swapped encoding — valid bit clear, swapped bit set —
never to Invalid; a request with at least one of read/write/execute set
rewrites the descriptor's write and execute bits to the requested values
with the read bit unconditionally set (so the resulting permission set is
the requested one with read forced on). -/
theorem C5_protect_range_swaps_or_rewrites (tbl : Nat → Nat)
    (startPage nPages i : Nat) (perms : PtePermissions)
    (hin1 : startPage ≤ i) (hin2 : i < startPage + nPages)
    (hvalid : is_valid (tbl i) = true) :
    (perms.read = false → perms.write = false → perms.execute = false →
      state (protect_range tbl startPage nPages perms i)
        = L3DescriptorState.Swapped)
  ∧ ((perms.read || perms.write || perms.execute) = true →
      protect_range tbl startPage nPages perms i
        = set_permissions (tbl i) perms
      ∧ (protect_range tbl startPage nPages perms i).testBit 2 = perms.write
      ∧ (protect_range tbl startPage nPages perms i).testBit 3 = perms.execute
      ∧ (protect_range tbl startPage nPages perms i).testBit 1 = true) := by
  have hwalk : protect_range tbl startPage nPages perms i
      = protect_callback perms (i <<< PAGE_SHIFT) (tbl i) := by
    simp [protect_range, walk_and_modify_region, hin1, hin2, hvalid]
  constructor
  · intro hr hw hx
    rw [hwalk]
    rw [show protect_callback perms (i <<< PAGE_SHIFT) (tbl i)
        = mark_as_swapped (tbl i) by
      rcases perms with ⟨r, w, x, u, c⟩
      simp only at hr hw hx
      subst hr hw hx
      rfl]
    exact state_mark_as_swapped (tbl i)
  · intro hone
    have hcb : protect_callback perms (i <<< PAGE_SHIFT) (tbl i)
        = set_permissions (tbl i) perms := by
      rcases perms with ⟨r, w, x, u, c⟩
      simp only [Bool.or_eq_true] at hone
      cases x <;> cases r <;> cases w <;> first
        | rfl
        | simp at hone
    rw [hwalk, hcb]
    exact ⟨rfl, set_permissions_testBit_two _ _,
      set_permissions_testBit_three _ _, set_permissions_testBit_one _ _⟩

/-- C5 witness: a concrete table whose page 2 holds a valid leaf. The
all-empty request leaves page 2 in the Swapped state; the read-write
request rewrites it with write set, execute clear and read forced on. -/
theorem C5_protect_range_swaps_or_rewrites_witness :
    (state (protect_range
        (fun _ => new_map_pa 8192 MemoryType.Normal
          ⟨true, false, false, false, false⟩)
        2 1 ⟨false, false, false, false, false⟩ 2)
      = L3DescriptorState.Swapped)
  ∧ ((protect_range
        (fun _ => new_map_pa 8192 MemoryType.Normal
          ⟨true, false, false, false, false⟩)
        2 1 ⟨true, true, false, false, false⟩ 2).testBit 2 = true
    ∧ (protect_range
        (fun _ => new_map_pa 8192 MemoryType.Normal
          ⟨true, false, false, false, false⟩)
        2 1 ⟨true, true, false, false, false⟩ 2).testBit 1 = true) :=
  ⟨(C5_protect_range_swaps_or_rewrites
      (fun _ => new_map_pa 8192 MemoryType.Normal
        ⟨true, false, false, false, false⟩)
      2 1 2 ⟨false, false, false, false, false⟩
      (by norm_num) (by norm_num) (by decide)).1 rfl rfl rfl,
   ((C5_protect_range_swaps_or_rewrites
      (fun _ => new_map_pa 8192 MemoryType.Normal
        ⟨true, false, false, false, false⟩)
      2 1 2 ⟨true, true, false, false, false⟩
      (by norm_num) (by norm_num) (by decide)).2 rfl).2.1.symm ▸ rfl,
   ((C5_protect_range_swaps_or_rewrites
      (fun _ => new_map_pa 8192 MemoryType.Normal
        ⟨true, false, false, false, false⟩)
      2 1 2 ⟨true, true, false, false, false⟩
      (by norm_num) (by norm_num) (by decide)).2 rfl).2.2.2⟩

/-- C6: whenever the kernel address space is initialized, every root-table
entry of a freshly created process address space at an index of the upper
half (256..511) equals the kernel root table's entry at the same index,
bit for bit. -/
theorem C6_process_root_upper_half_copied (k : Fin 512 → Nat) (i : Fin 512)
    (h : 256 ≤ i.val) :
    RiscvProcessAddressSpace.new (some k) i = k i := by
  simp [RiscvProcessAddressSpace.new, h]

/-- C6 witness: index 300 of a concrete kernel root table. -/
theorem C6_process_root_upper_half_copied_witness :
    RiscvProcessAddressSpace.new (some (fun j => j.val * 3))
      ⟨300, by norm_num⟩ = 900 :=
  (C6_process_root_upper_half_copied (fun j => j.val * 3)
    ⟨300, by norm_num⟩ (by norm_num)).trans rfl

/-- C7: evaluation of the user-mode fault path at the Denied resolution:
fault.rs line 57-60 executes `panic!("SIGSEGV: ...")`, i.e. the handler
panics the kernel instead of terminating the faulting process. -/
theorem C7_denied_fault_panics_kernel :
    handle_user_page_fault FaultResolution.Denied = FaultOutcome.kernelPanic := by
  rfl

/-- C8: for every raw 64-bit descriptor value, the Table and Leaf readings
are mutually exclusive: `next_table_address` answers exactly on valid
descriptors with R, W and X all clear, `mapped_address` answers exactly on
valid descriptors with R or X set, and the two are never both `some`. -/
theorem C8_table_leaf_exclusive (d : Nat) :
    ((next_table_address d).isSome
      = (is_valid d && !d.testBit 1 && !d.testBit 2 && !d.testBit 3))
  ∧ ((mapped_address d).isSome = (is_valid d && (d.testBit 1 || d.testBit 3)))
  ∧ (((next_table_address d).isSome && (mapped_address d).isSome) = false) := by
  cases h0 : d.testBit 0 <;> cases h1 : d.testBit 1 <;>
    cases h2 : d.testBit 2 <;> cases h3 : d.testBit 3 <;>
    simp [next_table_address, mapped_address, is_valid, h0, h1, h2, h3]

/-- C9: for every page-aligned physical address whose frame number fits the
44-bit PPN field, `new_next_table` yields a valid descriptor whose
`next_table_address` is exactly that address (the encoding round-trips). -/
theorem C9_new_next_table_roundtrip (pa : Nat)
    (hal : pa % PAGE_SIZE = 0) (hfit : pa < 2 ^ 56) :
    is_valid (new_next_table pa) = true ∧
    next_table_address (new_next_table pa) = some pa := by
  have hv : (new_next_table pa).testBit 0 = true := by
    simp [new_next_table, Nat.testBit_lor, testBit_one]
  have hfits : pa >>> PAGE_SHIFT < 2 ^ 44 := by
    show pa >>> 12 < 2 ^ 44
    rw [Nat.shiftRight_eq_div_pow]
    have h12 : (2 : Nat) ^ 12 = 4096 := by norm_num
    have h44 : (2 : Nat) ^ 44 = 17592186044416 := by norm_num
    have h56 : (2 : Nat) ^ 56 = 72057594037927936 := by norm_num
    rw [h12, h44]
    omega
  have hb1 : (new_next_table pa).testBit 1 = false :=
    new_next_table_low pa 1 (by omega) (by omega)
  have hb2 : (new_next_table pa).testBit 2 = false :=
    new_next_table_low pa 2 (by omega) (by omega)
  have hb3 : (new_next_table pa).testBit 3 = false :=
    new_next_table_low pa 3 (by omega) (by omega)
  have hppn : ppn_field (new_next_table pa) = pa >>> PAGE_SHIFT := by
    rw [ppn_field, new_next_table_shiftRight, Nat.mod_eq_of_lt hfits]
    exact Nat.mod_eq_of_lt hfits
  refine ⟨hv, ?_⟩
  rw [next_table_address, hv, hb1, hb2, hb3]
  simp only [Bool.not_false, Bool.and_true, Bool.and_self, if_true]
  rw [hppn]
  congr 1
  rw [Nat.shiftLeft_eq, Nat.shiftRight_eq_div_pow]
  show pa / 2 ^ 12 * 2 ^ 12 = pa
  exact Nat.div_mul_cancel (Nat.dvd_of_mod_eq_zero hal)

/-- C9 witness: the round-trip at the concrete table address 0x80000000. -/
theorem C9_new_next_table_roundtrip_witness :
    (0x80000000 % PAGE_SIZE = 0 ∧ (0x80000000 : Nat) < 2 ^ 56) ∧
    (is_valid (new_next_table 0x80000000) = true ∧
     next_table_address (new_next_table 0x80000000) = some 0x80000000) :=
  ⟨⟨by norm_num [PAGE_SIZE], by norm_num⟩,
   C9_new_next_table_roundtrip 0x80000000 (by norm_num [PAGE_SIZE]) (by norm_num)⟩

/-- C10: `set_permissions` unconditionally sets the READ bit (bit 1) of
every descriptor, for every requested permission set, and the Walk
engine's `make_flags` likewise includes READ in every leaf flag set. -/
theorem C10_read_always_set (d : Nat) (p : PtePermissions) (mt : MemoryType) :
    (set_permissions d p).testBit 1 = true ∧ (make_flags p mt).testBit 1 = true := by
  constructor
  · exact set_permissions_testBit_one d p
  · have h2 : Nat.testBit 2 1 = true := by decide
    rcases p with ⟨r, w, x, u, c⟩
    simp only [make_flags]
    cases w <;> cases x <;> cases u <;> cases mt <;>
      simp [Nat.testBit_or, PteFlags.READ, PteFlags.WRITE, PteFlags.EXECUTE,
        PteFlags.USER, PteFlags.GLOBAL, Nat.shiftLeft_eq, Nat.testBit_two_pow, h2]

end SOS
